import Mathlib

/-!
Verification of the LIVE_DELIVERY_API air-quality ETL pipeline.

Shallow embedding of the Python sources `extract.py`, `transform.py`,
`load.py` and `run_pipeline.py`.  Missing sensor values (pandas `NaN`)
are modelled as `none : Option ℚ`; pandas arithmetic on possibly-missing
numbers is modelled by `NaN`-propagating operations on `Option ℚ`.
-/

/-! ## transform.py -/

/-- `get_aqi_category` from `transform.py` (lines 13–22): AQI band from the
pm2.5 level, `"Unknown"` when the value is missing (`pd.isna`). -/
def get_aqi_category : Option ℚ → String
  | none => "Unknown"
  | some pm2_5 =>
      if pm2_5 ≤ 50 then "Good"
      else if pm2_5 ≤ 100 then "Moderate"
      else if pm2_5 ≤ 200 then "Unhealthy"
      else if pm2_5 ≤ 300 then "Very Unhealthy"
      else "Hazardous"

/-- `get_risk_label` from `transform.py` (lines 24–31): risk band from the
severity score, `"Unknown"` when the score is missing (`pd.isna`). -/
def get_risk_label : Option ℚ → String
  | none => "Unknown"
  | some severity =>
      if severity > 400 then "High Risk"
      else if severity > 200 then "Moderate Risk"
      else "Low Risk"

/-- Pandas addition on possibly-`NaN` numbers: `NaN` propagates. -/
def nAdd : Option ℚ → Option ℚ → Option ℚ
  | some a, some b => some (a + b)
  | _, _ => none

/-- Pandas multiplication of a possibly-`NaN` column by the scalar `c`
(the column is the left operand, as in `full_df['pm2_5'] * 5`). -/
def nMulC (x : Option ℚ) (c : ℚ) : Option ℚ :=
  match x with
  | some a => some (a * c)
  | none => none

/-- One row of the concatenated raw data after the `pd.to_numeric(...,
errors='coerce')` step of `run_transformation` (`transform.py` lines 96–98):
each of the seven pollutant columns is a number or missing. -/
structure RawReading where
  pm10 : Option ℚ
  pm2_5 : Option ℚ
  carbon_monoxide : Option ℚ
  nitrogen_dioxide : Option ℚ
  ozone : Option ℚ
  sulphur_dioxide : Option ℚ
  uv_index : Option ℚ
deriving DecidableEq, Repr

/-- The predicate of `full_df.dropna(subset=pollutants, how='all')`
(`transform.py` line 101): a row is removed exactly when every one of the
seven listed pollutant columns (`uv_index` included) is missing. -/
def allPollutantsMissing (r : RawReading) : Bool :=
  r.pm10.isNone && r.pm2_5.isNone && r.carbon_monoxide.isNone &&
  r.nitrogen_dioxide.isNone && r.ozone.isNone && r.sulphur_dioxide.isNone &&
  r.uv_index.isNone

/-- All six core pollutants (the `uv_index` column excluded) are missing. -/
def allCorePollutantsMissing (r : RawReading) : Bool :=
  r.pm10.isNone && r.pm2_5.isNone && r.carbon_monoxide.isNone &&
  r.nitrogen_dioxide.isNone && r.ozone.isNone && r.sulphur_dioxide.isNone

/-- The row-filtering step of `run_transformation` (`transform.py`
line 101). -/
def dropAllMissing (rows : List RawReading) : List RawReading :=
  rows.filter (fun r => !(allPollutantsMissing r))

/-- The severity-score computation of `run_transformation` (`transform.py`
lines 113–120): `(pm2_5*5) + (pm10*3) + (no2*4) + (so2*4) + (co*2) + (o3*3)`
with pandas `NaN` propagation. -/
def severity_score (r : RawReading) : Option ℚ :=
  nAdd (nAdd (nAdd (nAdd (nAdd (nMulC r.pm2_5 5) (nMulC r.pm10 3))
    (nMulC r.nitrogen_dioxide 4)) (nMulC r.sulphur_dioxide 4))
    (nMulC r.carbon_monoxide 2)) (nMulC r.ozone 3)

/-- The `risk_label` column of `run_transformation` (`transform.py`
line 123): `get_risk_label` applied to the severity score of the row. -/
def risk_label (r : RawReading) : String :=
  get_risk_label (severity_score r)

/-- Severity rank of an AQI band string, used to state monotonicity:
Good < Moderate < Unhealthy < Very Unhealthy < Hazardous. -/
def aqiSeverityRank (s : String) : Nat :=
  if s = "Good" then 0
  else if s = "Moderate" then 1
  else if s = "Unhealthy" then 2
  else if s = "Very Unhealthy" then 3
  else if s = "Hazardous" then 4
  else 5

/-- A raw row whose only present pollutant is `uv_index`. -/
def uvOnlyReading : RawReading :=
  ⟨none, none, none, none, none, none, some 1⟩

/-! ## Shared helper lemmas -/

lemma get_risk_label_unknown_iff (x : Option ℚ) :
    get_risk_label x = "Unknown" ↔ x = none := by
  cases x with
  | none => simp [get_risk_label]
  | some s =>
    simp only [get_risk_label]
    split_ifs <;> simp

lemma get_aqi_category_unknown_iff (x : Option ℚ) :
    get_aqi_category x = "Unknown" ↔ x = none := by
  cases x with
  | none => simp [get_aqi_category]
  | some v =>
    simp only [get_aqi_category]
    split_ifs <;> simp

lemma severity_score_none_iff (r : RawReading) :
    severity_score r = none ↔
      (r.pm2_5 = none ∨ r.pm10 = none ∨ r.nitrogen_dioxide = none ∨
       r.sulphur_dioxide = none ∨ r.carbon_monoxide = none ∨ r.ozone = none) := by
  obtain ⟨p10, p25, co, no2, o3, so2, uv⟩ := r
  cases p25 <;> cases p10 <;> cases no2 <;> cases so2 <;> cases co <;> cases o3 <;>
    simp [severity_score, nAdd, nMulC]

/-! ## Claim theorems about the Transformer's derived features -/

/-- C5: for every transformed Reading, `severity_score` is absent exactly
when at least one of the six contributing pollutants is absent (pandas
`NaN` arithmetic propagates an absent summand to an absent total), and
`risk_label` is `"Unknown"` exactly for those Readings. -/
theorem severity_absent_iff_some_pollutant_absent (r : RawReading) :
    (severity_score r = none ↔
      (r.pm2_5 = none ∨ r.pm10 = none ∨ r.nitrogen_dioxide = none ∨
       r.sulphur_dioxide = none ∨ r.carbon_monoxide = none ∨ r.ozone = none)) ∧
    (risk_label r = "Unknown" ↔
      (r.pm2_5 = none ∨ r.pm10 = none ∨ r.nitrogen_dioxide = none ∨
       r.sulphur_dioxide = none ∨ r.carbon_monoxide = none ∨ r.ozone = none)) := by
  refine ⟨severity_score_none_iff r, ?_⟩
  rw [risk_label, get_risk_label_unknown_iff, severity_score_none_iff]

/-- C8: for every Reading in which all six contributing pollutants are
present, the Transformer's severity score is the weighted sum
`pm2_5*5 + pm10*3 + nitrogen_dioxide*4 + sulphur_dioxide*4 +
carbon_monoxide*2 + ozone*3`. -/
theorem severity_score_weighted_sum (r : RawReading) (a b c d e f : ℚ)
    (h25 : r.pm2_5 = some a) (h10 : r.pm10 = some b)
    (hno2 : r.nitrogen_dioxide = some c) (hso2 : r.sulphur_dioxide = some d)
    (hco : r.carbon_monoxide = some e) (ho3 : r.ozone = some f) :
    severity_score r = some (a * 5 + b * 3 + c * 4 + d * 4 + e * 2 + f * 3) := by
  simp [severity_score, nAdd, nMulC, h25, h10, hno2, hso2, hco, ho3]

theorem severity_score_weighted_sum_witness :
    severity_score ⟨some 1, some 2, some 3, some 4, some 5, some 6, none⟩ =
      some (2 * 5 + 1 * 3 + 4 * 4 + 6 * 4 + 3 * 2 + 5 * 3) :=
  severity_score_weighted_sum ⟨some 1, some 2, some 3, some 4, some 5, some 6, none⟩
    2 1 4 6 3 5 rfl rfl rfl rfl rfl rfl

/-- C6: `get_aqi_category` maps every present pm2.5 value into one of the
5 fixed bands, is `"Unknown"` exactly when the value is absent, its band is
monotonically non-decreasing in severity as the value increases, and the
spec's four example values land in the stated bands. -/
theorem aqi_category_bands (v w : ℚ) (hvw : v ≤ w) :
    get_aqi_category (some v) ∈
      ["Good", "Moderate", "Unhealthy", "Very Unhealthy", "Hazardous"] ∧
    (∀ x : Option ℚ, get_aqi_category x = "Unknown" ↔ x = none) ∧
    aqiSeverityRank (get_aqi_category (some v)) ≤
      aqiSeverityRank (get_aqi_category (some w)) ∧
    get_aqi_category (some 45) = "Good" ∧
    get_aqi_category (some 75) = "Moderate" ∧
    get_aqi_category (some 250) = "Very Unhealthy" ∧
    get_aqi_category (some 350) = "Hazardous" := by
  refine ⟨?_, get_aqi_category_unknown_iff, ?_, ?_, ?_, ?_, ?_⟩
  · simp only [get_aqi_category]
    split_ifs <;> simp
  · simp only [get_aqi_category]
    split_ifs <;> simp [aqiSeverityRank] <;> linarith
  all_goals norm_num [get_aqi_category]

theorem aqi_category_bands_witness :
    get_aqi_category (some 45) ∈
      ["Good", "Moderate", "Unhealthy", "Very Unhealthy", "Hazardous"] ∧
    aqiSeverityRank (get_aqi_category (some 45)) ≤
      aqiSeverityRank (get_aqi_category (some 350)) :=
  ⟨(aqi_category_bands 45 350 (by norm_num)).1,
   (aqi_category_bands 45 350 (by norm_num)).2.2.1⟩

/-- C7: `get_risk_label` is `"High Risk"` iff the score exceeds 400,
`"Moderate Risk"` iff it is in (200, 400], `"Low Risk"` iff it is at most
200, and `"Unknown"` iff the score is absent. -/
theorem risk_label_thresholds (s : ℚ) :
    (∀ x : Option ℚ, get_risk_label x = "Unknown" ↔ x = none) ∧
    (get_risk_label (some s) = "High Risk" ↔ 400 < s) ∧
    (get_risk_label (some s) = "Moderate Risk" ↔ (200 < s ∧ s ≤ 400)) ∧
    (get_risk_label (some s) = "Low Risk" ↔ s ≤ 200) := by
  refine ⟨get_risk_label_unknown_iff, ?_, ?_, ?_⟩ <;>
    simp only [get_risk_label] <;>
    split_ifs <;> simp <;>
    first | linarith | (constructor <;> linarith) | (intros; linarith)

/-- C1 counterexample: a row whose six core pollutants are all absent but
whose `uv_index` is present survives the Transformer's drop step, because
`dropna(subset=pollutants, how='all')` lists all seven pollutant columns,
`uv_index` included (`transform.py` lines 96 and 101). -/
theorem transformer_drop_counterexample :
    dropAllMissing [uvOnlyReading] = [uvOnlyReading] ∧
    allCorePollutantsMissing uvOnlyReading = true := by
  constructor <;> rfl

/-- C1 (amended): the Transformer drops a row exactly when all seven
pollutant columns (`uv_index` included) are absent; in particular every row
with at least one of the six core pollutants present is retained. -/
theorem transformer_drop_amended (rows : List RawReading) (r : RawReading) :
    (r ∈ dropAllMissing rows ↔ (r ∈ rows ∧ allPollutantsMissing r = false)) ∧
    ((r ∈ rows ∧ allCorePollutantsMissing r = false) → r ∈ dropAllMissing rows) := by
  have hmem : r ∈ dropAllMissing rows ↔ (r ∈ rows ∧ allPollutantsMissing r = false) := by
    simp [dropAllMissing, List.mem_filter]
  refine ⟨hmem, ?_⟩
  rintro ⟨hr, hc⟩
  refine hmem.mpr ⟨hr, ?_⟩
  simp only [allPollutantsMissing, allCorePollutantsMissing,
    Bool.and_eq_false_iff] at hc ⊢
  tauto

theorem transformer_drop_amended_witness :
    (⟨some 7, none, none, none, none, none, none⟩ : RawReading) ∈
      dropAllMissing [⟨some 7, none, none, none, none, none, none⟩] :=
  (transformer_drop_amended [⟨some 7, none, none, none, none, none, none⟩]
    ⟨some 7, none, none, none, none, none, none⟩).2
    ⟨by simp, by rfl⟩

/-! ## extract.py -/

/-- Outcome of one attempt of the request body of `fetch_city_data`
(`extract.py` lines 41–57): success, one of the three retryable exception
classes (`HTTPError`, `ConnectionError`, `Timeout`), or any other
exception, which the final `except` clause fails on immediately. -/
inductive FetchOut where
  | success
  | httpError
  | connectionError
  | timeoutError
  | unexpectedError
deriving DecidableEq, Repr

/-- The three exception classes `fetch_city_data` retries on. -/
def isRetryableFetch : FetchOut → Bool
  | .httpError => true
  | .connectionError => true
  | .timeoutError => true
  | _ => false

/-- The retry loop of `fetch_city_data` (`extract.py` lines 39–89):
`for attempt in range(1, MAX_RETRIES + 1)`.  `remaining` is the number of
loop iterations still available (so `attempt < MAX_RETRIES` in the source
is `remaining ≠ 1` here).  Returns (success flag, number of invocations of
the operation, list of sleep durations in seconds, in order). -/
def fetchLoop (op : Nat → FetchOut) : Nat → Nat → Bool × Nat × List Nat
  | _, 0 => (false, 0, [])
  | attempt, remaining + 1 =>
      match op attempt with
      | .success => (true, 1, [])
      | .unexpectedError => (false, 1, [])
      | _ =>
          if remaining = 0 then (false, 1, [])
          else
            let rest := fetchLoop op (attempt + 1) remaining
            (rest.1, rest.2.1 + 1, 2 ^ attempt :: rest.2.2)

/-- `MAX_RETRIES` of `extract.py` (line 18). -/
def EXTRACT_MAX_RETRIES : Nat := 3

/-- `fetch_city_data` of `extract.py`, abstracted over the per-attempt
outcome of the network request: attempts are numbered 1 .. `MAX_RETRIES`,
and the backoff sleep after a failed attempt is `2 ^ attempt` seconds. -/
def fetch_city_data (op : Nat → FetchOut) : Bool × Nat × List Nat :=
  fetchLoop op 1 EXTRACT_MAX_RETRIES

/-! ## load.py -/

/-- Outcome of one attempt of the request body of `insert_batch`
(`load.py` lines 193–202), modelled as `Except`: `.error e` is an
exception raised by `execute()`, `.ok n` a response whose `data` has `n`
rows.  The attempt succeeds exactly when the response has nonempty data;
an empty-data response raises inside the `try` and is caught by the same
`except` clause. -/
def insAttemptSucceeds : Except String Nat → Bool
  | .ok (_ + 1) => true
  | _ => false

/-- The retry loop of `insert_batch` (`load.py` lines 192–210):
`for attempt in range(MAX_RETRIES + 1)` with a constant `time.sleep(2)`
before each retry.  `remaining` is the number of loop iterations still
available (`attempt < MAX_RETRIES` in the source is `remaining ≠ 1`).
Returns (success flag, invocations, sleep durations in order). -/
def insertLoop (op : Nat → Except String Nat) : Nat → Nat → Bool × Nat × List Nat
  | _, 0 => (false, 0, [])
  | attempt, remaining + 1 =>
      if insAttemptSucceeds (op attempt) then (true, 1, [])
      else if remaining = 0 then (false, 1, [])
      else
        let rest := insertLoop op (attempt + 1) remaining
        (rest.1, rest.2.1 + 1, 2 :: rest.2.2)

/-- `MAX_RETRIES` of `load.py` (line 17): 2 retries, 3 total attempts. -/
def LOAD_MAX_RETRIES : Nat := 2

/-- `insert_batch` of `load.py`, abstracted over the per-attempt outcome
of the Supabase insert: attempts are numbered 0 .. `MAX_RETRIES`. -/
def insert_batch (op : Nat → Except String Nat) : Bool × Nat × List Nat :=
  insertLoop op 0 (LOAD_MAX_RETRIES + 1)

/-- `BATCH_SIZE` of `load.py` (line 16). -/
def BATCH_SIZE : Nat := 200

/-- The slicing loop of `run_loading` (`load.py` lines 236–237):
`for i in range(0, total_records, B): batch = records[i : i + B]`.
Structural fuel recursion; `chunkList` supplies fuel `l.length`, which for
`0 < B` is enough since every step consumes at least one element. -/
def chunkGo (B : Nat) : Nat → List α → List (List α)
  | 0, _ => []
  | _, [] => []
  | fuel + 1, a :: l => (a :: l).take B :: chunkGo B fuel ((a :: l).drop B)

/-- The list of batches `run_loading` submits, in original order. -/
def chunkList (B : Nat) (l : List α) : List (List α) :=
  chunkGo B l.length l

/-- The per-batch accounting loop of `run_loading` (`load.py` lines
233–243): `batch_index = (i // BATCH_SIZE) + 1` (so indices start at 1);
a successful `insert_batch` adds the batch length to `success_count`,
a failed one to `fail_count`.  `sink idx` is the per-attempt outcome
function for the batch with index `idx`. -/
def loadBatches (sink : Nat → Nat → Except String Nat) :
    Nat → List (List α) → Nat × Nat
  | _, [] => (0, 0)
  | idx, b :: bs =>
      let rest := loadBatches sink (idx + 1) bs
      if (insert_batch (sink idx)).1 then (b.length + rest.1, rest.2)
      else (rest.1, b.length + rest.2)

/-- `run_loading` of `load.py` (lines 214–250), abstracted over the batch
size and the sink behaviour; returns `(success_count, fail_count)`. -/
def run_loading_batches (B : Nat) (records : List α)
    (sink : Nat → Nat → Except String Nat) : Nat × Nat :=
  loadBatches sink 1 (chunkList B records)

/-- `run_loading` at the source's fixed `BATCH_SIZE = 200`. -/
def run_loading (records : List α) (sink : Nat → Nat → Except String Nat) :
    Nat × Nat :=
  run_loading_batches BATCH_SIZE records sink

/-- The contribution of the batch with index `idx` and length `len` to
the load summary: `(len, 0)` on success, `(0, len)` on terminal failure.
It depends only on the sink's behaviour for that batch index. -/
def batchContribution (sink : Nat → Nat → Except String Nat)
    (idx len : Nat) : Nat × Nat :=
  if (insert_batch (sink idx)).1 then (len, 0) else (0, len)

/-! ## Lemmas about the Batch Loader -/

lemma chunkGo_join (B : Nat) (hB : 0 < B) :
    ∀ (fuel : Nat) (l : List α), l.length ≤ fuel → (chunkGo B fuel l).flatten = l := by
  intro fuel
  induction fuel with
  | zero =>
    intro l hl
    have : l = [] := List.eq_nil_of_length_eq_zero (Nat.le_zero.mp hl)
    subst this
    rfl
  | succ fuel ih =>
    intro l hl
    cases l with
    | nil => rfl
    | cons a t =>
      have hlen : ((a :: t).drop B).length ≤ fuel := by
        simp only [List.length_drop, List.length_cons] at *
        omega
      simp only [chunkGo, List.flatten]
      rw [ih _ hlen, List.take_append_drop]

lemma chunkGo_length (B : Nat) (hB : 0 < B) :
    ∀ (fuel : Nat) (l : List α), l.length ≤ fuel →
      (chunkGo B fuel l).length = (l.length + B - 1) / B := by
  intro fuel
  induction fuel with
  | zero =>
    intro l hl
    have : l = [] := List.eq_nil_of_length_eq_zero (Nat.le_zero.mp hl)
    subst this
    simp [chunkGo, Nat.div_eq_of_lt (show B - 1 < B by omega)]
  | succ fuel ih =>
    intro l hl
    cases l with
    | nil => simp [chunkGo, Nat.div_eq_of_lt (show B - 1 < B by omega)]
    | cons a t =>
      have hlen : ((a :: t).drop B).length ≤ fuel := by
        simp only [List.length_drop, List.length_cons] at *
        omega
      simp only [chunkGo, List.length_cons]
      rw [ih _ hlen]
      simp only [List.length_drop, List.length_cons]
      rcases le_or_lt B (t.length + 1) with h | h
      · have e1 : t.length + 1 - B + B - 1 = t.length := by omega
        have e2 : t.length + 1 + B - 1 = t.length + B := by omega
        rw [e1, e2, Nat.add_div_right _ hB]
      · have e1 : t.length + 1 - B = 0 := by omega
        have e2 : t.length + 1 + B - 1 = t.length + B := by omega
        rw [e1, e2, Nat.add_div_right _ hB,
          Nat.div_eq_of_lt (show t.length < B by omega),
          Nat.div_eq_of_lt (show 0 + B - 1 < B by omega)]

lemma chunkList_join (B : Nat) (hB : 0 < B) (l : List α) :
    (chunkList B l).flatten = l :=
  chunkGo_join B hB l.length l le_rfl

lemma chunkList_length (B : Nat) (hB : 0 < B) (l : List α) :
    (chunkList B l).length = (l.length + B - 1) / B :=
  chunkGo_length B hB l.length l le_rfl

lemma loadBatches_sum (sink : Nat → Nat → Except String Nat) :
    ∀ (idx : Nat) (bs : List (List α)),
      (loadBatches sink idx bs).1 + (loadBatches sink idx bs).2 =
        (bs.map List.length).sum := by
  intro idx bs
  induction bs generalizing idx with
  | nil => simp [loadBatches]
  | cons b bs ih =>
    simp only [loadBatches, List.map_cons, List.sum_cons]
    split_ifs <;> simp only [] <;> rw [← ih (idx + 1)] <;> omega

lemma loadBatches_all_fail (sink : Nat → Nat → Except String Nat)
    (hfail : ∀ i, (insert_batch (sink i)).1 = false) :
    ∀ (idx : Nat) (bs : List (List α)),
      loadBatches sink idx bs = (0, (bs.map List.length).sum) := by
  intro idx bs
  induction bs generalizing idx with
  | nil => simp [loadBatches]
  | cons b bs ih => simp [loadBatches, hfail idx, ih (idx + 1)]

/-- C4: for every input sequence of N rows and batch size B > 0, the
Batch Loader partitions the input in original order into exactly
⌈N/B⌉ = (N + B - 1) / B batches, its summary satisfies
`succeeded + failed = N`, and a sink that fails every call yields
`succeeded = 0, failed = N`. -/
theorem batch_loader_partition_counts (records : List α) (B : Nat) (hB : 0 < B)
    (sink : Nat → Nat → Except String Nat) :
    (chunkList B records).flatten = records ∧
    (chunkList B records).length = (records.length + B - 1) / B ∧
    (run_loading_batches B records sink).1 +
      (run_loading_batches B records sink).2 = records.length ∧
    ((∀ i, (insert_batch (sink i)).1 = false) →
      run_loading_batches B records sink = (0, records.length)) := by
  have hflat := chunkList_join B hB records
  refine ⟨hflat, chunkList_length B hB records, ?_, ?_⟩
  · rw [run_loading_batches, loadBatches_sum, ← List.length_flatten, hflat]
  · intro hfail
    rw [run_loading_batches, loadBatches_all_fail sink hfail, ← List.length_flatten,
      hflat]

theorem batch_loader_partition_counts_witness :
    (chunkList 2 [1, 2, 3]).length = (3 + 2 - 1) / 2 ∧
    run_loading_batches 2 [1, 2, 3] (fun _ _ => Except.error "down") = (0, 3) :=
  ⟨(batch_loader_partition_counts [1, 2, 3] 2 (by decide)
      (fun _ _ => Except.error "down")).2.1,
   (batch_loader_partition_counts [1, 2, 3] 2 (by decide)
      (fun _ _ => Except.error "down")).2.2.2 (fun _ => rfl)⟩

/-- C9: the Batch Loader absorbs every individual batch failure (the
`except` clause of `insert_batch` catches every exception, so the loop
always returns a summary): for every sink behaviour the summary accounts
for all N rows, the loop processes batches one after another with each
batch adding its own contribution, and that contribution depends only on
the sink's behaviour for that batch's index, never on other batches. -/
theorem loader_absorbs_batch_failures (records : List α) (B : Nat) (hB : 0 < B)
    (sink sink2 : Nat → Nat → Except String Nat) :
    ((run_loading_batches B records sink).1 +
       (run_loading_batches B records sink).2 = records.length) ∧
    (∀ (idx : Nat) (b : List α) (bs : List (List α)),
        loadBatches sink idx (b :: bs) =
          batchContribution sink idx b.length + loadBatches sink (idx + 1) bs) ∧
    (∀ idx len, sink idx = sink2 idx →
        batchContribution sink idx len = batchContribution sink2 idx len) := by
  refine ⟨?_, ?_, ?_⟩
  · rw [run_loading_batches, loadBatches_sum, ← List.length_flatten,
      chunkList_join B hB]
  · intro idx b bs
    simp only [loadBatches, batchContribution]
    split_ifs <;> simp [Prod.ext_iff, Prod.fst_add, Prod.snd_add]
  · intro idx len h
    simp [batchContribution, h]

theorem loader_absorbs_batch_failures_witness :
    ((run_loading_batches 2 [1, 2, 3] (fun _ _ => Except.ok 0)).1 +
       (run_loading_batches 2 [1, 2, 3] (fun _ _ => Except.ok 0)).2 = 3) ∧
    loadBatches (fun _ _ => Except.ok 0) 1 ([1, 2] :: [[3]]) =
      batchContribution (fun _ _ => Except.ok 0) 1 2 +
        loadBatches (fun _ _ => Except.ok 0) 2 [[3]] :=
  ⟨(loader_absorbs_batch_failures [1, 2, 3] 2 (by decide)
      (fun _ _ => Except.ok 0) (fun _ _ => Except.ok 0)).1,
   (loader_absorbs_batch_failures [1, 2, 3] 2 (by decide)
      (fun _ _ => Except.ok 0) (fun _ _ => Except.ok 0)).2.1 1 [1, 2] [[3]]⟩

/-- A list of sleep durations is strictly increasing. -/
def strictlyIncreasing : List Nat → Bool
  | a :: b :: t => (a < b) && strictlyIncreasing (b :: t)
  | _ => true

/-- C3 counterexample: for the batch insert, an operation that fails on
its first two attempts and succeeds on the third does return success after
exactly 3 invocations, but the two sleeps are the constant
`time.sleep(2)` of `load.py` line 207 — equal, not strictly increasing,
and not `2^attempt`. -/
theorem retry_backoff_counterexample :
    insert_batch (fun a => if a < 2 then Except.error "network" else Except.ok 1) =
      (true, 3, [2, 2]) ∧
    strictlyIncreasing [2, 2] = false := by
  exact ⟨rfl, rfl⟩

/-- C3 (amended): with `maxAttempts = 3`, an operation failing with a
retryable failure on attempts 1 and 2 and succeeding on attempt 3 returns
success after exactly 3 invocations for both wrapped remote operations;
the extraction fetch performs two sleeps of strictly increasing duration
`2^attempt` (2 then 4 seconds), while the batch insert performs two
sleeps of the constant duration 2. -/
theorem retry_third_attempt_success
    (opF : Nat → FetchOut) (opI : Nat → Except String Nat)
    (hf1 : isRetryableFetch (opF 1) = true)
    (hf2 : isRetryableFetch (opF 2) = true)
    (hf3 : opF 3 = .success)
    (hi0 : insAttemptSucceeds (opI 0) = false)
    (hi1 : insAttemptSucceeds (opI 1) = false)
    (hi2 : insAttemptSucceeds (opI 2) = true) :
    fetch_city_data opF = (true, 3, [2, 4]) ∧
    strictlyIncreasing [2, 4] = true ∧
    insert_batch opI = (true, 3, [2, 2]) := by
  refine ⟨?_, rfl, ?_⟩
  · show fetchLoop opF 1 3 = (true, 3, [2, 4])
    cases h1 : opF 1 <;> cases h2 : opF 2 <;> simp_all [fetchLoop, isRetryableFetch]
  · show insertLoop opI 0 3 = (true, 3, [2, 2])
    simp [insertLoop, hi0, hi1, hi2]

theorem retry_third_attempt_success_witness :
    fetch_city_data (fun a => if a < 3 then .timeoutError else .success) =
      (true, 3, [2, 4]) ∧
    insert_batch (fun a => if a < 2 then Except.ok 0 else Except.ok 5) =
      (true, 3, [2, 2]) :=
  ⟨(retry_third_attempt_success
      (fun a => if a < 3 then .timeoutError else .success)
      (fun a => if a < 2 then Except.ok 0 else Except.ok 5)
      rfl rfl rfl rfl rfl rfl).1,
   (retry_third_attempt_success
      (fun a => if a < 3 then .timeoutError else .success)
      (fun a => if a < 2 then Except.ok 0 else Except.ok 5)
      rfl rfl rfl rfl rfl rfl).2.2⟩

/-! ## run_pipeline.py -/

/-- The four sequential stages of `main` in `run_pipeline.py`. -/
inductive Stage where
  | extract
  | transform
  | load
  | analyze
deriving DecidableEq, Repr

/-- The run environment of one pipeline invocation: the per-city fetch
outcomes seen by `run_extraction`, the number of JSON files
`run_transformation`'s glob finds, the number of payloads
`process_city_file` parses successfully, and whether `run_loading`'s
input file exists.  The model covers the control flow the source defines
for these conditions; per-item payload failures are caught inside
`process_city_file` (`transform.py` lines 59–61) and do not raise. -/
structure PipelineEnv where
  cityOutcomes : List Bool
  rawJsonFiles : Nat
  validPayloads : Nat
  stagedFileExists : Bool
deriving DecidableEq, Repr

/-- `run_extraction` (`extract.py` lines 93–115): number of saved files;
it always prints its attempted/succeeded summary before returning. -/
def run_extraction (env : PipelineEnv) : Nat :=
  env.cityOutcomes.count true

/-- How `run_transformation` returns (`transform.py` lines 65–141):
missing input files (lines 74–76) and an all-invalid raw store (lines
84–86) are early `return`s — not exceptions — and only `wroteOutput`
prints the stage summary. -/
inductive TransformOutcome where
  | noInputFiles
  | noValidData
  | wroteOutput
deriving DecidableEq, Repr

/-- `run_transformation` as seen by the orchestrator: it returns normally
in all three cases (`Except.error` would be an unhandled exception, which
none of these paths raises). -/
def run_transformation (env : PipelineEnv) : Except String TransformOutcome :=
  if env.rawJsonFiles = 0 then .ok .noInputFiles
  else if env.validPayloads = 0 then .ok .noValidData
  else .ok .wroteOutput

/-- How `run_loading` returns (`load.py` lines 214–250): a missing input
file (lines 218–220) is an early `return` — not an exception — and only
`summaryPrinted` prints the load summary. -/
inductive LoadOutcome where
  | inputMissing
  | summaryPrinted
deriving DecidableEq, Repr

/-- `run_loading`'s control flow as seen by the orchestrator. -/
def run_loading_stage (env : PipelineEnv) : Except String LoadOutcome :=
  if env.stagedFileExists then .ok .summaryPrinted else .ok .inputMissing

/-- Result of one `main` run of `run_pipeline.py`: stages entered, whether
the run ended in `sys.exit(1)`, and the extraction summary counts. -/
structure PipelineResult where
  stagesRun : List Stage
  exitFailure : Bool
  extractAttempted : Nat
  extractSucceeded : Nat
deriving DecidableEq, Repr

/-- `main` of `run_pipeline.py` (lines 16–68): each stage runs in a
`try` block whose `except` calls `sys.exit(1)`.  Step 1 raises when
`run_extraction` saved no files (lines 27–28), so zero successes halt the
run; the later stages' early returns are normal returns, so the `except`
clauses of steps 2–4 fire only on unhandled exceptions, which the
modelled conditions never raise. -/
def pipelineMain (env : PipelineEnv) : PipelineResult :=
  let attempted := env.cityOutcomes.length
  let saved := run_extraction env
  if saved = 0 then ⟨[.extract], true, attempted, saved⟩
  else
    match run_transformation env with
    | .error _ => ⟨[.extract, .transform], true, attempted, saved⟩
    | .ok _ =>
      match run_loading_stage env with
      | .error _ => ⟨[.extract, .transform, .load], true, attempted, saved⟩
      | .ok _ => ⟨[.extract, .transform, .load, .analyze], false, attempted, saved⟩

/-- C2 counterexample: with a partially successful extraction and the
load stage's input file missing, the pipeline does NOT halt: `run_loading`
returns early and the analysis stage still runs, with a zero exit.  The
claim says a missing input file halts the run before later stages. -/
theorem pipeline_halt_counterexample :
    (pipelineMain ⟨[true, false, false, false, false], 1, 1, false⟩).stagesRun =
      [.extract, .transform, .load, .analyze] ∧
    (pipelineMain ⟨[true, false, false, false, false], 1, 1, false⟩).exitFailure
      = false ∧
    (⟨[true, false, false, false, false], 1, 1, false⟩ :
      PipelineEnv).stagedFileExists = false := by
  exact ⟨rfl, rfl, rfl⟩

/-- C2 (amended): absent unhandled stage exceptions, exactly one condition
halts the run before later stages execute: a total extraction failure
(zero locations succeeded).  A missing input file only makes the affected
stage return early; all subsequent stages still run.  The extraction
summary always reports attempted versus succeeded counts, and the load
stage prints its summary whenever its input file exists. -/
theorem pipeline_halting_amended (env : PipelineEnv) :
    ((pipelineMain env).exitFailure = true ↔ env.cityOutcomes.count true = 0) ∧
    ((pipelineMain env).exitFailure = true →
      (pipelineMain env).stagesRun = [.extract]) ∧
    ((pipelineMain env).exitFailure = false →
      (pipelineMain env).stagesRun = [.extract, .transform, .load, .analyze]) ∧
    (pipelineMain env).extractAttempted = env.cityOutcomes.length ∧
    (pipelineMain env).extractSucceeded = env.cityOutcomes.count true ∧
    (env.stagedFileExists = true →
      run_loading_stage env = .ok .summaryPrinted) := by
  obtain ⟨cities, raw, valid, staged⟩ := env
  simp only [pipelineMain, run_extraction, run_transformation, run_loading_stage]
  by_cases h : cities.count true = 0
  · simp [h]
  · simp [h]
    split_ifs <;> simp_all

theorem pipeline_halting_amended_witness :
    (pipelineMain ⟨[true, true], 1, 1, true⟩).stagesRun =
      [.extract, .transform, .load, .analyze] ∧
    run_loading_stage ⟨[true, true], 1, 1, true⟩ = .ok .summaryPrinted :=
  ⟨(pipeline_halting_amended ⟨[true, true], 1, 1, true⟩).2.2.1 rfl,
   (pipeline_halting_amended ⟨[true, true], 1, 1, true⟩).2.2.2.2.2 rfl⟩

/-! ## load.py : clean_data_for_json -/

/-- A wall-clock timestamp as parsed by `pd.to_datetime`. -/
structure Timestamp where
  year : Nat
  month : Nat
  day : Nat
  hour : Nat
  minute : Nat
  second : Nat
deriving DecidableEq, Repr

/-- One cell of the staged DataFrame: a number, a string, a parsed
timestamp, a missing value (pandas `NaN`), or the sink's null
(Python `None`). -/
inductive CellVal where
  | num (q : ℚ)
  | str (s : String)
  | tim (t : Timestamp)
  | nan
  | null
deriving DecidableEq, Repr

/-- One DataFrame row as an ordered column-name → cell association, the
shape `df.to_dict(orient='records')` produces per row. -/
abbrev Row := List (String × CellVal)

/-- Two-digit zero padding, as `strftime` emits for `%m %d %H %M %S`. -/
def pad2 (n : Nat) : String :=
  if n < 10 then "0" ++ toString n else toString n

/-- Four-digit zero padding, as `strftime` emits for `%Y`. -/
def pad4 (n : Nat) : String :=
  if n < 10 then "000" ++ toString n
  else if n < 100 then "00" ++ toString n
  else if n < 1000 then "0" ++ toString n
  else toString n

/-- `strftime('%Y-%m-%dT%H:%M:%S')` (`load.py` line 180). -/
def isoFormat (t : Timestamp) : String :=
  pad4 t.year ++ "-" ++ pad2 t.month ++ "-" ++ pad2 t.day ++ "T" ++
  pad2 t.hour ++ ":" ++ pad2 t.minute ++ ":" ++ pad2 t.second

/-- `df.rename(columns={'risk_label': 'risk_flag'})` (`load.py` lines
175–176) restricted to one row: only the column name changes, never the
value (the rename is a no-op on rows without the column, so applying the
map unconditionally is faithful to the `if 'risk_label' in df.columns`
guard). -/
def renameColumn (fromName toName : String) (row : Row) : Row :=
  row.map (fun kv => if kv.1 = fromName then (toName, kv.2) else kv)

/-- `df['time'] = pd.to_datetime(df['time']).dt.strftime(...)` (`load.py`
line 180): every parsed timestamp in the `time` column becomes its fixed
ISO-8601 textual form; a missing time (`NaT`) stays missing here and is
handled by the later `replace`. -/
def serializeTimeColumn (row : Row) : Row :=
  row.map (fun kv =>
    if kv.1 = "time" then
      (kv.1, match kv.2 with
             | .tim t => .str (isoFormat t)
             | v => v)
    else kv)

/-- `df.replace({np.nan: None})` (`load.py` line 184): every missing cell
becomes the sink's null. -/
def replaceNanWithNull (row : Row) : Row :=
  row.map (fun kv => if kv.2 = .nan then (kv.1, .null) else kv)

/-- `clean_data_for_json` of `load.py` (lines 167–186), per row, in the
source's order: rename, then timestamp serialization, then `NaN`
replacement. -/
def clean_data_for_json (row : Row) : Row :=
  replaceNanWithNull
    (serializeTimeColumn (renameColumn "risk_label" "risk_flag" row))

/-- C10: the pre-insert normalization renames `risk_label` to `risk_flag`
(keeping the value), serializes every parsed time value to the fixed
ISO-8601 text, replaces every absent (`NaN`) cell with the sink's null,
leaves every other cell of every row unchanged, and its output contains
no `NaN`. -/
theorem clean_data_normalization (row : Row) (k : String) (v : CellVal)
    (t : Timestamp) :
    (((k, v) ∈ row ∧ k ≠ "risk_label" ∧ k ≠ "time" ∧ v ≠ .nan) →
        (k, v) ∈ clean_data_for_json row) ∧
    ((("risk_label", v) ∈ row ∧ v ≠ .nan) →
        ("risk_flag", v) ∈ clean_data_for_json row) ∧
    (("time", .tim t) ∈ row →
        ("time", .str (isoFormat t)) ∈ clean_data_for_json row) ∧
    (((k, .nan) ∈ row ∧ k ≠ "risk_label" ∧ k ≠ "time") →
        (k, .null) ∈ clean_data_for_json row) ∧
    (∀ k2 v2, (k2, v2) ∈ clean_data_for_json row → v2 ≠ .nan) := by
  refine ⟨?_, ?_, ?_, ?_, ?_⟩
  · rintro ⟨hm, hk1, hk2, hv⟩
    simp only [clean_data_for_json, replaceNanWithNull, serializeTimeColumn,
      renameColumn, List.map_map, List.mem_map, Function.comp]
    exact ⟨(k, v), hm, by simp [hk1, hk2, hv]⟩
  · rintro ⟨hm, hv⟩
    simp only [clean_data_for_json, replaceNanWithNull, serializeTimeColumn,
      renameColumn, List.map_map, List.mem_map, Function.comp]
    exact ⟨("risk_label", v), hm, by simp [hv]⟩
  · intro hm
    simp only [clean_data_for_json, replaceNanWithNull, serializeTimeColumn,
      renameColumn, List.map_map, List.mem_map, Function.comp]
    exact ⟨("time", .tim t), hm, by simp⟩
  · rintro ⟨hm, hk1, hk2⟩
    simp only [clean_data_for_json, replaceNanWithNull, serializeTimeColumn,
      renameColumn, List.map_map, List.mem_map, Function.comp]
    exact ⟨(k, .nan), hm, by simp [hk1, hk2]⟩
  · intro k2 v2 hmem
    simp only [clean_data_for_json, replaceNanWithNull, serializeTimeColumn,
      renameColumn, List.map_map, List.mem_map, Function.comp] at hmem
    obtain ⟨⟨xk, xv⟩, hx, heq⟩ := hmem
    by_cases h1 : xk = "risk_label" <;> by_cases h2 : xk = "time" <;>
      cases xv <;> simp [h1, h2] at heq <;> rcases heq with ⟨rfl, rfl⟩ <;> simp

theorem clean_data_normalization_witness :
    ("city", CellVal.str "Delhi") ∈
      clean_data_for_json
        [("city", CellVal.str "Delhi"),
         ("time", CellVal.tim ⟨2023, 1, 2, 3, 4, 5⟩),
         ("pm10", CellVal.nan),
         ("risk_label", CellVal.str "Low Risk")] ∧
    ("risk_flag", CellVal.str "Low Risk") ∈
      clean_data_for_json
        [("city", CellVal.str "Delhi"),
         ("time", CellVal.tim ⟨2023, 1, 2, 3, 4, 5⟩),
         ("pm10", CellVal.nan),
         ("risk_label", CellVal.str "Low Risk")] ∧
    ("time", CellVal.str (isoFormat ⟨2023, 1, 2, 3, 4, 5⟩)) ∈
      clean_data_for_json
        [("city", CellVal.str "Delhi"),
         ("time", CellVal.tim ⟨2023, 1, 2, 3, 4, 5⟩),
         ("pm10", CellVal.nan),
         ("risk_label", CellVal.str "Low Risk")] ∧
    ("pm10", CellVal.null) ∈
      clean_data_for_json
        [("city", CellVal.str "Delhi"),
         ("time", CellVal.tim ⟨2023, 1, 2, 3, 4, 5⟩),
         ("pm10", CellVal.nan),
         ("risk_label", CellVal.str "Low Risk")] :=
  ⟨(clean_data_normalization _ "city" (CellVal.str "Delhi")
      ⟨2023, 1, 2, 3, 4, 5⟩).1 ⟨by simp, by simp, by simp, by simp⟩,
   (clean_data_normalization _ "city" (CellVal.str "Low Risk")
      ⟨2023, 1, 2, 3, 4, 5⟩).2.1 ⟨by simp, by simp⟩,
   (clean_data_normalization _ "city" (CellVal.str "Low Risk")
      ⟨2023, 1, 2, 3, 4, 5⟩).2.2.1 (by simp),
   (clean_data_normalization _ "pm10" (CellVal.str "Low Risk")
      ⟨2023, 1, 2, 3, 4, 5⟩).2.2.2.1 ⟨by simp, by simp, by simp⟩⟩
